import Mathlib

/-!
Verification development for the Passly SDK (two variants: the multi-source
SDK in `src/index.js`, embedded in namespace `Passly`, and the reduced
single-source SDK, embedded in namespace `Passly.SS`).

Remote contract calls are modelled by oracle structures whose fields are the
contract methods; a call either returns a value or fails with an error
message, written `Except String _`.  JS `null` is `Option.none`; a thrown JS
error is `Except.error`.  Timestamps follow the source: contracts return
seconds, `new Date(x * 1000)` turns them into millisecond values, and `Date`
subtraction is integer subtraction on milliseconds.
-/

deriving instance DecidableEq for Except

namespace Passly

/-- Character-list test: the second list is an initial segment of the
first. -/
def charsStartWith : List Char → List Char → Bool
  | _, [] => true
  | [], _ :: _ => false
  | c :: cs, d :: ds => c == d && charsStartWith cs ds

/-- Character-list test: the second list occurs contiguously in the
first. -/
def charsHaveSub : List Char → List Char → Bool
  | [], sub => charsStartWith [] sub
  | c :: rest, sub => charsStartWith (c :: rest) sub || charsHaveSub rest sub

/-- JS `String.prototype.includes`: substring containment. -/
def jsIncludes (s sub : String) : Bool :=
  charsHaveSub s.toList sub.toList

/-- JS `String.prototype.toLowerCase`, modelled per character. -/
def jsToLower (s : String) : String :=
  String.mk (s.toList.map Char.toLower)

/-- JS string truthiness fallback `s || d`. -/
def jsOr (s d : String) : String :=
  if s = "" then d else s

/-- Raw tuple returned by `getPassportData` in the multi-source ABI. -/
structure PassportDataRaw where
  owner : String
  createdAt : Nat
  verificationCount : Nat
  category : String
  totalPoints : Nat
  referralCode : String
  totalReferrals : Nat
deriving DecidableEq

/-- Raw tuple returned by `getVerification` in the multi-source ABI. -/
structure VerificationRaw where
  identifier : String
  verifiedAt : Nat
  proofHash : String
  active : Bool
  pointsAwarded : Bool
deriving DecidableEq

/-- Behaviour of the mandatory identity-registry (passly) contract. -/
structure Registry where
  getPassportByAddress : String → Except String Nat
  getPassportData : Nat → Except String PassportDataRaw
  getVerifiedPlatforms : Nat → Except String (List String)
  getVerification : Nat → String → Except String VerificationRaw

/-- Raw tuple returned by the rewards contract `getPointBreakdown`. -/
structure PointBreakdown where
  holding : Nat
  platform : Nat
  referral : Nat
  total : Nat
deriving DecidableEq

/-- Behaviour of the optional rewards contract. -/
structure RewardsSource where
  getPoints : Nat → Except String Nat
  getPointBreakdown : Nat → Except String PointBreakdown

/-- The ledger environment behind the bound contract objects. -/
structure Chain where
  passly : Registry
  rewards : RewardsSource

/-- The `this.contracts` record: which contract bindings are set, holding
the bound address when set (an unset field models a missing binding). -/
structure Contracts where
  passly : Option String
  platforms : Option String
  archives : Option String
  rewards : Option String
  leaderboard : Option String
deriving DecidableEq

/-- SDK instance state after construction or `connect`. -/
structure SDK where
  isConnected : Bool
  contracts : Contracts
deriving DecidableEq

/-- Constructor configuration; the empty string models an absent (falsy)
address field. -/
structure Config where
  contractAddress : String := ""
  platformsAddress : String := ""
  archivesAddress : String := ""
  rewardsAddress : String := ""
  leaderboardAddress : String := ""
deriving DecidableEq

/-- `connect`: computes the address record with hard-coded fallbacks and
initializes every contract whose address is truthy. -/
def connect (cfg : Config) : SDK :=
  let passlyAddr := jsOr cfg.contractAddress "0x8EEFC0840Bc24e269A2F77B787E9b3e212c4F316"
  let platformsAddr := jsOr cfg.platformsAddress "0xd2FEEa5775c171D85648198AeB77377fD9AdFe98"
  let archivesAddr := jsOr cfg.archivesAddress "0xbC57EA3ff9BDE13087b907Dc02e86f08C57574E7"
  let rewardsAddr := jsOr cfg.rewardsAddress "0xEc34ad267a9AACE045Ef4644047BCFeB0f53b0C0"
  let leaderboardAddr := jsOr cfg.leaderboardAddress "0x7f9c4841346d0ef7970daF02aE3663f8AC5bE540"
  { isConnected := true
    contracts :=
      { passly := some passlyAddr
        platforms := if platformsAddr ≠ "" then some platformsAddr else none
        archives := if archivesAddr ≠ "" then some archivesAddr else none
        rewards := if rewardsAddr ≠ "" then some rewardsAddr else none
        leaderboard := if leaderboardAddr ≠ "" then some leaderboardAddr else none } }

/-- Message thrown by `_ensureConnected`. -/
def notConnectedMsg : String := "Passly SDK not connected. Call connect() first."

/-- `getPassportId`: reverse lookup; the recognized no-passport failure is
converted to `null`, any other failure is re-thrown. -/
def getPassportId (sdk : SDK) (env : Chain) (address : String) :
    Except String (Option Nat) :=
  if sdk.isConnected = false then .error notConnectedMsg
  else
    match env.passly.getPassportByAddress address with
    | .ok pid => .ok (some pid)
    | .error e =>
      if jsIncludes e "User has no passport" then .ok none else .error e

/-- `hasPassport`: true when `getPassportId` did not return `null`. -/
def hasPassport (sdk : SDK) (env : Chain) (address : String) :
    Except String Bool :=
  (getPassportId sdk env address).map (fun p => p.isSome)

/-- A formatted verification entry (`verifiedAt` in ms, via `new Date`). -/
structure Verification where
  identifier : String
  verifiedAt : Int
  proofHash : String
  active : Bool
  pointsAwarded : Bool
deriving DecidableEq

/-- Formatting of one raw verification tuple. -/
def fmtVerification (v : VerificationRaw) : Verification :=
  { identifier := v.identifier
    verifiedAt := (v.verifiedAt : Int) * 1000
    proofHash := v.proofHash
    active := v.active
    pointsAwarded := v.pointsAwarded }

/-- Formatted passport object (`createdAt` in ms). -/
structure Passport where
  id : Nat
  owner : String
  createdAt : Int
  verificationCount : Nat
  category : String
  totalPoints : Nat
  referralCode : String
  totalReferrals : Nat
  platforms : List String
  verifications : List (String × Verification)
deriving DecidableEq

/-- The verification-gathering loop of the multi-source `getPassport`: a
platform whose `getVerification` call fails is skipped, the others are kept
in iteration order. -/
def buildVerifications (reg : Registry) (pid : Nat) :
    List String → List (String × Verification)
  | [] => []
  | p :: rest =>
    match reg.getVerification pid p with
    | .ok v => (p, fmtVerification v) :: buildVerifications reg pid rest
    | .error _ => buildVerifications reg pid rest

/-- Multi-source `getPassport`: resolution failures and the falsy id 0 give
`null`; base-record and platform-list failures propagate; per-platform
verification failures are skipped by `buildVerifications`. -/
def getPassport (sdk : SDK) (env : Chain) (address : String) :
    Except String (Option Passport) :=
  if sdk.isConnected = false then .error notConnectedMsg
  else
    match getPassportId sdk env address with
    | .error _ => .ok none
    | .ok none => .ok none
    | .ok (some pid) =>
      if pid = 0 then .ok none
      else
        match env.passly.getPassportData pid with
        | .error e => .error e
        | .ok pd =>
          match env.passly.getVerifiedPlatforms pid with
          | .error e => .error e
          | .ok platforms =>
            .ok (some
              { id := pid
                owner := pd.owner
                createdAt := (pd.createdAt : Int) * 1000
                verificationCount := pd.verificationCount
                category := pd.category
                totalPoints := pd.totalPoints
                referralCode := pd.referralCode
                totalReferrals := pd.totalReferrals
                platforms := platforms
                verifications := buildVerifications env.passly pid platforms })

/-- Lookup in a verifications mapping (JS property access by key). -/
def verifLookup (vs : List (String × Verification)) (p : String) :
    Option Verification :=
  match vs.find? (fun x => x.1 == p) with
  | some x => some x.2
  | none => none

/-- `passport.verifications[platform].active` as used by the active-platform
filters.  A key absent from the mapping makes the JS expression a runtime
type error; it is modelled as inactive, and every passport `getPassport`
produces has entries exactly for the platforms that loaded. -/
def verifActive (vs : List (String × Verification)) (p : String) : Bool :=
  match verifLookup vs p with
  | some v => v.active
  | none => false

/-- The fixed social platform set of the scorer. -/
def socialPlatforms : List String := ["twitter", "discord", "telegram", "instagram"]

/-- The fixed developer platform set of the scorer. -/
def devPlatforms : List String := ["github", "gitlab"]

/-- The fixed chain platform set of the multi-source scorer. -/
def chainPlatforms : List String := ["solana", "ethereum"]

/-- `passport.platforms.filter(p => passport.verifications[p].active)`. -/
def activePlatformList (pass : Passport) : List String :=
  pass.platforms.filter (fun p => verifActive pass.verifications p)

/-- Base score: 15 points per active platform, capped at 75. -/
def platformCountOf (pass : Passport) : Int :=
  min (((activePlatformList pass).length : Int) * 15) 75

/-- `Math.floor((now - passport.createdAt) / (1000*60*60*24))`. -/
def ageInDaysOf (pass : Passport) (now : Int) : Int :=
  Int.fdiv (now - pass.createdAt) 86400000

/-- Age bonus: `min(floor(ageInDays / 30), 10)`. -/
def ageBonusOf (pass : Passport) (now : Int) : Int :=
  min (Int.fdiv (ageInDaysOf pass now) 30) 10

/-- The `types` list: which of the three platform sets has an active member,
filtered to the true entries. -/
def typesOf (pass : Passport) : List Bool :=
  ([(activePlatformList pass).any (fun p => socialPlatforms.contains p),
    (activePlatformList pass).any (fun p => devPlatforms.contains p),
    (activePlatformList pass).any (fun p => chainPlatforms.contains p)]).filter
    (fun b => b)

/-- Diversity bonus: 10 points when at least two platform types are present. -/
def diversityBonusOf (pass : Passport) : Int :=
  if 2 ≤ (typesOf pass).length then 10 else 0

/-- Points bonus: `min(floor(totalPoints / 100), 5)`, only entered when
`totalPoints > 0`. -/
def pointsBonusOf (pass : Passport) : Int :=
  if 0 < pass.totalPoints then min ((pass.totalPoints / 100 : Nat) : Int) 5 else 0

/-- Running sum of the four score components. -/
def scoreSumOf (pass : Passport) (now : Int) : Int :=
  platformCountOf pass + ageBonusOf pass now + diversityBonusOf pass +
    pointsBonusOf pass

/-- `breakdown.totalScore = Math.min(score, 100)`. -/
def totalScoreOf (pass : Passport) (now : Int) : Int :=
  min (scoreSumOf pass now) 100

/-- The grade ternary chain shared by both variants. -/
def gradeOf (totalScore : Int) : Char :=
  if 80 ≤ totalScore then 'A'
  else if 60 ≤ totalScore then 'B'
  else if 40 ≤ totalScore then 'C'
  else if 20 ≤ totalScore then 'D'
  else 'F'

/-- The `breakdown` record of the multi-source scorer. -/
structure StrengthBreakdown where
  platformCount : Int
  ageBonus : Int
  diversityBonus : Int
  pointsBonus : Int
  totalScore : Int
deriving DecidableEq

/-- Result object of the multi-source `getVerificationStrength`. -/
structure Strength where
  score : Int
  grade : Char
  breakdown : StrengthBreakdown
  activePlatforms : Nat
  accountAge : Int
deriving DecidableEq

/-- The pure scoring computation of the multi-source
`getVerificationStrength` over an already-fetched passport, with `now` the
evaluation time in ms. -/
def verificationStrengthOf (pass : Passport) (now : Int) : Strength :=
  { score := totalScoreOf pass now
    grade := gradeOf (totalScoreOf pass now)
    breakdown :=
      { platformCount := platformCountOf pass
        ageBonus := ageBonusOf pass now
        diversityBonus := diversityBonusOf pass
        pointsBonus := pointsBonusOf pass
        totalScore := totalScoreOf pass now }
    activePlatforms := (activePlatformList pass).length
    accountAge := ageInDaysOf pass now }

/-- Multi-source `getVerificationStrength`: fetch the passport, then score
it; `null` passport yields `null`. -/
def getVerificationStrength (sdk : SDK) (env : Chain) (address : String)
    (now : Int) : Except String (Option Strength) :=
  (getPassport sdk env address).map
    (fun op => op.map (fun pass => verificationStrengthOf pass now))

/-- The filter body of `getUserVerifications`: keep active entries, mapped
to their platform identifier, in insertion order. -/
def userVerificationsView (vs : List (String × Verification)) :
    List (String × String) :=
  (vs.filter (fun x => x.2.active)).map (fun x => (x.1, x.2.identifier))

/-- Multi-source `getUserVerifications`. -/
def getUserVerifications (sdk : SDK) (env : Chain) (address : String) :
    Except String (Option (List (String × String))) :=
  match getPassport sdk env address with
  | .error e => .error e
  | .ok none => .ok none
  | .ok (some pass) => .ok (some (userVerificationsView pass.verifications))

/-- Handle classification `/^\d+$/` used by `_resolvePassportId` (the
numeric-typed argument case collapses into the numeric-string case). -/
def isNumericHandle (h : String) : Bool :=
  h.length > 0 && h.all (fun c => c.isDigit)

/-- Syntactic address check standing for `ethers.utils.isAddress`.
Modelled from the spec: the ethers implementation itself is outside the
repository; any syntactically plausible 0x-prefixed 42-character string is
accepted. -/
def isAddressHandle (h : String) : Bool :=
  h.startsWith "0x" && h.length = 42

/-- `_resolvePassportId`: numeric handles parse directly; address handles
go through `getPassportId`, whose falsy results throw; anything else is an
invalid handle.  Unexpected registry failures propagate. -/
def resolvePassportId (sdk : SDK) (env : Chain) (handle : String) :
    Except String Nat :=
  if isNumericHandle handle then .ok ((handle.toNat?).getD 0)
  else if isAddressHandle handle then
    match getPassportId sdk env handle with
    | .error e => .error e
    | .ok none => .error "No passport found for address"
    | .ok (some pid) =>
      if pid = 0 then .error "No passport found for address" else .ok pid
  else .error "Invalid address or passport ID"

/-- Body of `getPointBreakdown` once the rewards binding check passed (the
try block; any failure inside is caught and becomes `null`).  The boolean
records whether a rewards-contract call was attempted. -/
def getPointBreakdownBound (sdk : SDK) (env : Chain) (handle : String) :
    Except String (Option PointBreakdown) × Bool :=
  match resolvePassportId sdk env handle with
  | .error _ => (.ok none, false)
  | .ok pid =>
    match env.rewards.getPointBreakdown pid with
    | .error _ => (.ok none, true)
    | .ok pb => (.ok (some pb), true)

/-- `getPointBreakdown`, instrumented with a flag telling whether any
rewards-contract call was attempted. -/
def getPointBreakdownT (sdk : SDK) (env : Chain) (handle : String) :
    Except String (Option PointBreakdown) × Bool :=
  if sdk.isConnected = false then (.error notConnectedMsg, false)
  else
    match sdk.contracts.rewards with
    | none => (.ok none, false)
    | some _ => getPointBreakdownBound sdk env handle

/-- Body of `getPoints` once the rewards binding check passed. -/
def getPointsBound (sdk : SDK) (env : Chain) (handle : String) :
    Except String (Option Nat) × Bool :=
  match resolvePassportId sdk env handle with
  | .error _ => (.ok none, false)
  | .ok pid =>
    match env.rewards.getPoints pid with
    | .error _ => (.ok none, true)
    | .ok n => (.ok (some n), true)

/-- `getPoints`, instrumented like `getPointBreakdownT`; with the rewards
binding missing it falls back to the passport snapshot `totalPoints`. -/
def getPointsT (sdk : SDK) (env : Chain) (handle : String) :
    Except String (Option Nat) × Bool :=
  if sdk.isConnected = false then (.error notConnectedMsg, false)
  else
    match sdk.contracts.rewards with
    | none =>
      (match getPassport sdk env handle with
       | .error e => .error e
       | .ok op => .ok (op.map (fun pass => pass.totalPoints)), false)
    | some _ => getPointsBound sdk env handle

end Passly

namespace Passly.SS

/-- Raw tuple returned by `getPassportData` in the single-source ABI
(four return values). -/
structure PassportDataRaw where
  owner : String
  createdAt : Nat
  verificationCount : Nat
  category : String
deriving DecidableEq

/-- Raw tuple returned by `getVerification` in the single-source ABI. -/
structure VerificationRaw where
  identifier : String
  verifiedAt : Nat
  proofHash : String
  active : Bool
deriving DecidableEq

/-- Behaviour of the single Passly contract of the reduced variant. -/
structure Registry where
  getPassportByAddress : String → Except String Nat
  getPassportData : Nat → Except String PassportDataRaw
  getVerifiedPlatforms : Nat → Except String (List String)
  getVerification : Nat → String → Except String VerificationRaw

/-- Formatted verification entry of the reduced variant. -/
structure Verification where
  identifier : String
  verifiedAt : Int
  proofHash : String
  active : Bool
deriving DecidableEq

/-- Formatting of one raw verification tuple. -/
def fmtVerification (v : VerificationRaw) : Verification :=
  { identifier := v.identifier
    verifiedAt := (v.verifiedAt : Int) * 1000
    proofHash := v.proofHash
    active := v.active }

/-- Formatted passport object of the reduced variant. -/
structure Passport where
  id : Nat
  owner : String
  createdAt : Int
  verificationCount : Nat
  category : String
  platforms : List String
  verifications : List (String × Verification)
deriving DecidableEq

/-- The verification-gathering loop of the single-source `getPassport`:
there is no per-platform catch, so the first failing `getVerification`
call aborts the whole loop. -/
def buildVerifications (reg : Registry) (pid : Nat) :
    List String → Except String (List (String × Verification))
  | [] => .ok []
  | p :: rest =>
    match reg.getVerification pid p with
    | .error e => .error e
    | .ok v =>
      match buildVerifications reg pid rest with
      | .error e => .error e
      | .ok vs => .ok ((p, fmtVerification v) :: vs)

/-- Single-source `getPassportId` (same contract as the multi-source one). -/
def getPassportId (conn : Bool) (reg : Registry) (address : String) :
    Except String (Option Nat) :=
  if conn = false then .error notConnectedMsg
  else
    match reg.getPassportByAddress address with
    | .ok pid => .ok (some pid)
    | .error e =>
      if jsIncludes e "User has no passport" then .ok none else .error e

/-- Single-source `getPassport`: resolution failures give `null`, but a
failure while loading any single verification propagates. -/
def getPassport (conn : Bool) (reg : Registry) (address : String) :
    Except String (Option Passport) :=
  if conn = false then .error notConnectedMsg
  else
    match getPassportId conn reg address with
    | .error _ => .ok none
    | .ok none => .ok none
    | .ok (some pid) =>
      if pid = 0 then .ok none
      else
        match reg.getPassportData pid with
        | .error e => .error e
        | .ok pd =>
          match reg.getVerifiedPlatforms pid with
          | .error e => .error e
          | .ok platforms =>
            match buildVerifications reg pid platforms with
            | .error e => .error e
            | .ok verifications =>
              .ok (some
                { id := pid
                  owner := pd.owner
                  createdAt := (pd.createdAt : Int) * 1000
                  verificationCount := pd.verificationCount
                  category := pd.category
                  platforms := platforms
                  verifications := verifications })

/-- Lookup in a verifications mapping of the reduced variant. -/
def verifLookup (vs : List (String × Verification)) (p : String) :
    Option Verification :=
  match vs.find? (fun x => x.1 == p) with
  | some x => some x.2
  | none => none

/-- `passport.verifications[platform].active` in the reduced variant; see
the note on the multi-source `verifActive`. -/
def verifActive (vs : List (String × Verification)) (p : String) : Bool :=
  match verifLookup vs p with
  | some v => v.active
  | none => false

/-- The filter body of the reduced `getUserVerifications` (identical to the
multi-source one). -/
def userVerificationsView (vs : List (String × Verification)) :
    List (String × String) :=
  (vs.filter (fun x => x.2.active)).map (fun x => (x.1, x.2.identifier))

/-- Single-source `getUserVerifications`. -/
def getUserVerifications (conn : Bool) (reg : Registry) (address : String) :
    Except String (Option (List (String × String))) :=
  match getPassport conn reg address with
  | .error e => .error e
  | .ok none => .ok none
  | .ok (some pass) => .ok (some (userVerificationsView pass.verifications))

/-- The tracking loop of `getEarliestVerification`: over the platform list,
keep the active verification with the strictly smallest `verifiedAt`;
missing mapping keys (impossible for passports this variant builds) are
skipped. -/
def earliestGo (vs : List (String × Verification)) :
    List String → Option (String × Verification) → Option (String × Verification)
  | [], acc => acc
  | p :: rest, acc =>
    match verifLookup vs p with
    | none => earliestGo vs rest acc
    | some v =>
      if v.active then
        match acc with
        | none => earliestGo vs rest (some (p, v))
        | some e =>
          if v.verifiedAt < e.2.verifiedAt then earliestGo vs rest (some (p, v))
          else earliestGo vs rest acc
      else earliestGo vs rest acc

/-- The earliest active verification of a passport, as found by
`getEarliestVerification`. -/
def earliestOf (pass : Passport) : Option (String × Verification) :=
  earliestGo pass.verifications pass.platforms none

/-- `earliest.ageInDays` when an earliest active verification exists:
`Math.floor((now - verifiedAt) / 86400000)`. -/
def earliestAgeInDays (pass : Passport) (now : Int) : Option Int :=
  match earliestOf pass with
  | none => none
  | some pv => some (Int.fdiv (now - pv.2.verifiedAt) 86400000)

/-- Active platform list of the reduced scorer. -/
def activePlatformList (pass : Passport) : List String :=
  pass.platforms.filter (fun p => verifActive pass.verifications p)

/-- Base score of the reduced scorer: 20 points per active platform,
capped at 80. -/
def platformCountOf (pass : Passport) : Int :=
  min (((activePlatformList pass).length : Int) * 20) 80

/-- Age bonus of the reduced scorer: `min(floor(ageInDays / 24.33), 15)`
where `ageInDays` comes from the earliest active verification; no earliest
verification means no bonus.  The JS divisor is the floating literal
24.33, modelled exactly as the rational 2433/100. -/
def ageBonusOf (pass : Passport) (now : Int) : Int :=
  match earliestAgeInDays pass now with
  | some d => min (Int.fdiv (d * 100) 2433) 15
  | none => 0

/-- Diversity bonus of the reduced scorer: 5 points for having both a
social and a developer platform active. -/
def diversityBonusOf (pass : Passport) : Int :=
  if ((activePlatformList pass).any (fun p => socialPlatforms.contains p)) &&
     ((activePlatformList pass).any (fun p => devPlatforms.contains p)) then 5
  else 0

/-- Component sum of the reduced scorer. -/
def scoreSumOf (pass : Passport) (now : Int) : Int :=
  platformCountOf pass + ageBonusOf pass now + diversityBonusOf pass

/-- `breakdown.totalScore = Math.min(score, 100)` of the reduced scorer. -/
def totalScoreOf (pass : Passport) (now : Int) : Int :=
  min (scoreSumOf pass now) 100

/-- The `breakdown` record of the reduced scorer. -/
structure StrengthBreakdown where
  platformCount : Int
  ageBonus : Int
  diversityBonus : Int
  totalScore : Int
deriving DecidableEq

/-- Result object of the reduced `getVerificationStrength`. -/
structure Strength where
  score : Int
  grade : Char
  breakdown : StrengthBreakdown
  activePlatforms : Nat
  accountAge : Int
deriving DecidableEq

/-- The pure scoring computation of the reduced `getVerificationStrength`
(the earliest-verification refetch resolves to the same passport because
the registry oracle is a function). -/
def verificationStrengthOf (pass : Passport) (now : Int) : Strength :=
  { score := totalScoreOf pass now
    grade := gradeOf (totalScoreOf pass now)
    breakdown :=
      { platformCount := platformCountOf pass
        ageBonus := ageBonusOf pass now
        diversityBonus := diversityBonusOf pass
        totalScore := totalScoreOf pass now }
    activePlatforms := (activePlatformList pass).length
    accountAge := (earliestAgeInDays pass now).getD 0 }

/-- One record returned by the category scanner. -/
structure ScanRecord where
  id : Nat
  owner : String
  createdAt : Int
  verificationCount : Nat
  category : String
  platforms : List String
deriving DecidableEq

/-- The probe loop of `getUsersByCategory`, tracked with the list of
identifiers whose base record was fetched.  Arguments after the
normalized category and `limit`: current identifier, matches found so
far, remaining attempts out of the `limit * 10` budget. -/
def scanGo (reg : Registry) (ncat : String) (limit : Nat) :
    Nat → Nat → Nat → List ScanRecord × List Nat
  | _, _, 0 => ([], [])
  | currentId, found, attemptsLeft + 1 =>
    if limit ≤ found then ([], [])
    else
      match reg.getPassportData currentId with
      | .error _ =>
        let r := scanGo reg ncat limit (currentId + 1) found attemptsLeft
        (r.1, currentId :: r.2)
      | .ok pd =>
        if jsToLower pd.category == ncat then
          match reg.getVerifiedPlatforms currentId with
          | .error _ =>
            let r := scanGo reg ncat limit (currentId + 1) found attemptsLeft
            (r.1, currentId :: r.2)
          | .ok platforms =>
            let r := scanGo reg ncat limit (currentId + 1) (found + 1) attemptsLeft
            ({ id := currentId
               owner := pd.owner
               createdAt := (pd.createdAt : Int) * 1000
               verificationCount := pd.verificationCount
               category := pd.category
               platforms := platforms } :: r.1, currentId :: r.2)
        else
          let r := scanGo reg ncat limit (currentId + 1) found attemptsLeft
          (r.1, currentId :: r.2)

/-- `getUsersByCategory(category, limit, startId)` with its probe trace:
bounded best-effort linear scan with attempt budget `limit * 10`. -/
def getUsersByCategory (conn : Bool) (reg : Registry) (category : String)
    (limit startId : Nat) : Except String (List ScanRecord) × List Nat :=
  if conn = false then (.error notConnectedMsg, [])
  else
    let r := scanGo reg (jsToLower category) limit startId 0 (limit * 10)
    (.ok r.1, r.2)

end Passly.SS

namespace Passly

/-- An active verification used by the Scenario B fixture. -/
def verifB (idf : String) : Verification :=
  { identifier := idf, verifiedAt := 0, proofHash := "0xhash", active := true,
    pointsAwarded := true }

/-- Scenario B identity: 6 active platforms (3 social, 2 developer,
1 chain), created at epoch, totalPoints 250. -/
def passportB : Passport :=
  { id := 1
    owner := "0xOwnerB"
    createdAt := 0
    verificationCount := 6
    category := "creator"
    totalPoints := 250
    referralCode := "REF"
    totalReferrals := 0
    platforms := ["twitter", "discord", "telegram", "github", "gitlab", "solana"]
    verifications :=
      [("twitter", verifB "tw"), ("discord", verifB "dc"),
       ("telegram", verifB "tg"), ("github", verifB "gh"),
       ("gitlab", verifB "gl"), ("solana", verifB "sol")] }

/-- Evaluation instant 400 days after epoch, in ms. -/
def nowB : Int := 34560000000

/-- The active platforms reach into a given fixed platform set. -/
def spans (pass : Passport) (s : List String) : Prop :=
  ∃ p, p ∈ activePlatformList pass ∧ p ∈ s

/-- The active platforms span at least two of the three fixed sets. -/
def atLeastTwoSets (pass : Passport) : Prop :=
  (spans pass socialPlatforms ∧ spans pass devPlatforms) ∨
  (spans pass socialPlatforms ∧ spans pass chainPlatforms) ∨
  (spans pass devPlatforms ∧ spans pass chainPlatforms)

/-- The fixed grade thresholds, as a predicate on a score and a grade. -/
def gradeConsistent (score : Int) (grade : Char) : Prop :=
  (grade = 'A' ↔ 80 ≤ score) ∧
  (grade = 'B' ↔ 60 ≤ score ∧ score < 80) ∧
  (grade = 'C' ↔ 40 ≤ score ∧ score < 60) ∧
  (grade = 'D' ↔ 20 ≤ score ∧ score < 40) ∧
  (grade = 'F' ↔ score < 20)

/-- A single-source passport fixture with one active verification. -/
def spassW : SS.Passport :=
  { id := 2
    owner := "0xW"
    createdAt := 0
    verificationCount := 1
    category := "creator"
    platforms := ["twitter"]
    verifications :=
      [("twitter",
        { identifier := "al", verifiedAt := 1000, proofHash := "0xp",
          active := true })] }

/-- A passport whose `createdAt` lies 31 days after the evaluation time. -/
def passFut : Passport :=
  { id := 3
    owner := "0xFut"
    createdAt := 2678400000
    verificationCount := 0
    category := "gaming"
    totalPoints := 0
    referralCode := ""
    totalReferrals := 0
    platforms := []
    verifications := [] }

/-- A rewards oracle none of whose calls are expected to be made. -/
def rewardsStub : RewardsSource :=
  { getPoints := fun _ => .error "unused"
    getPointBreakdown := fun _ => .error "unused" }

/-- Registry oracle serving the Scenario B identity under every address. -/
def registryB : Registry :=
  { getPassportByAddress := fun _ => .ok 1
    getPassportData := fun _ =>
      .ok { owner := "0xOwnerB", createdAt := 0, verificationCount := 6,
            category := "creator", totalPoints := 250, referralCode := "REF",
            totalReferrals := 0 }
    getVerifiedPlatforms := fun _ =>
      .ok ["twitter", "discord", "telegram", "github", "gitlab", "solana"]
    getVerification := fun _ p =>
      .ok { identifier := p, verifiedAt := 0, proofHash := "0xhash",
            active := true, pointsAwarded := true } }

/-- The Scenario B chain. -/
def chainB : Chain := { passly := registryB, rewards := rewardsStub }

/-- A connected session whose rewards binding (and every other optional
binding) is missing. -/
def sdkNoRewards : SDK :=
  { isConnected := true
    contracts :=
      { passly := some "0x8EEFC0840Bc24e269A2F77B787E9b3e212c4F316"
        platforms := none, archives := none, rewards := none,
        leaderboard := none } }

/-- Registry oracle whose reverse lookup fails with an unrecognized
message. -/
def registryDown : Registry :=
  { getPassportByAddress := fun _ => .error "network down"
    getPassportData := fun _ => .error "unused"
    getVerifiedPlatforms := fun _ => .error "unused"
    getVerification := fun _ _ => .error "unused" }

/-- A chain whose mandatory registry is unreachable. -/
def chainDown : Chain := { passly := registryDown, rewards := rewardsStub }

/-- Registry oracle for the C5 witness: two verified platforms, the
`github` detail fetch fails. -/
def registryHalf : Registry :=
  { getPassportByAddress := fun _ => .ok 7
    getPassportData := fun _ =>
      .ok { owner := "0xH", createdAt := 0, verificationCount := 2,
            category := "developer", totalPoints := 0, referralCode := "",
            totalReferrals := 0 }
    getVerifiedPlatforms := fun _ => .ok ["twitter", "github"]
    getVerification := fun _ q =>
      if q == "github" then .error "boom"
      else .ok { identifier := "alice", verifiedAt := 0, proofHash := "0xp",
                 active := true, pointsAwarded := true } }

/-- The chain of the C5 witness. -/
def chainHalf : Chain := { passly := registryHalf, rewards := rewardsStub }

/-- Single-source registry for the C5 counterexample: same shape, the
`github` detail fetch fails. -/
def ssRegistryHalf : SS.Registry :=
  { getPassportByAddress := fun _ => .ok 1
    getPassportData := fun _ =>
      .ok { owner := "0xO", createdAt := 100, verificationCount := 2,
            category := "creator" }
    getVerifiedPlatforms := fun _ => .ok ["twitter", "github"]
    getVerification := fun _ q =>
      if q == "github" then .error "github fetch failed"
      else .ok { identifier := "alice", verifiedAt := 50, proofHash := "0xp",
                 active := true } }

/-- The passport the Scenario B chain resolves to. -/
def passportBFull : Passport :=
  { id := 1
    owner := "0xOwnerB"
    createdAt := 0
    verificationCount := 6
    category := "creator"
    totalPoints := 250
    referralCode := "REF"
    totalReferrals := 0
    platforms := ["twitter", "discord", "telegram", "github", "gitlab", "solana"]
    verifications :=
      (["twitter", "discord", "telegram", "github", "gitlab", "solana"]).map
        (fun p => (p, { identifier := p, verifiedAt := 0, proofHash := "0xhash",
                        active := true, pointsAwarded := true })) }

/-- Single-source registry with one active platform, for the C7 witness. -/
def ssRegistryOne : SS.Registry :=
  { getPassportByAddress := fun _ => .ok 2
    getPassportData := fun _ =>
      .ok { owner := "0xW", createdAt := 0, verificationCount := 1,
            category := "creator" }
    getVerifiedPlatforms := fun _ => .ok ["twitter"]
    getVerification := fun _ _ =>
      .ok { identifier := "al", verifiedAt := 1, proofHash := "0xp",
            active := true } }

/-- The passport `ssRegistryOne` resolves to. -/
def spassOne : SS.Passport :=
  { id := 2
    owner := "0xW"
    createdAt := 0
    verificationCount := 1
    category := "creator"
    platforms := ["twitter"]
    verifications :=
      [("twitter",
        { identifier := "al", verifiedAt := 1000, proofHash := "0xp",
          active := true })] }

/-- Registry oracle whose reverse lookup returns identifier 0. -/
def registryZero : Registry :=
  { getPassportByAddress := fun _ => .ok 0
    getPassportData := fun _ => .error "unused"
    getVerifiedPlatforms := fun _ => .error "unused"
    getVerification := fun _ _ => .error "unused" }

/-- The chain of the zero-identifier scenario. -/
def chainZero : Chain := { passly := registryZero, rewards := rewardsStub }

/-- Sparse registry for the C2 witness: base records exist only for
identifiers 1 to 3. -/
def scanRegistry : SS.Registry :=
  { getPassportByAddress := fun _ => .error "unused"
    getPassportData := fun n =>
      if n ≤ 3 then
        .ok { owner := "0xS", createdAt := 10, verificationCount := 1,
              category := "Gaming" }
      else .error "No such passport"
    getVerifiedPlatforms := fun _ => .ok ["twitter"]
    getVerification := fun _ _ => .error "unused" }

end Passly

namespace Passly

/-- The length test on the filtered `types` list agrees with spanning at
least two of the three platform sets. -/
lemma typesOf_two_iff (pass : Passport) :
    2 ≤ (typesOf pass).length ↔ atLeastTwoSets pass := by
  have h1 : ((activePlatformList pass).any
      (fun p => socialPlatforms.contains p)) = true ↔
      spans pass socialPlatforms := by
    simp [spans, List.any_eq_true]
  have h2 : ((activePlatformList pass).any
      (fun p => devPlatforms.contains p)) = true ↔
      spans pass devPlatforms := by
    simp [spans, List.any_eq_true]
  have h3 : ((activePlatformList pass).any
      (fun p => chainPlatforms.contains p)) = true ↔
      spans pass chainPlatforms := by
    simp [spans, List.any_eq_true]
  unfold typesOf atLeastTwoSets
  rw [← h1, ← h2, ← h3]
  cases (activePlatformList pass).any (fun p => socialPlatforms.contains p) <;>
    cases (activePlatformList pass).any (fun p => devPlatforms.contains p) <;>
      cases (activePlatformList pass).any (fun p => chainPlatforms.contains p) <;>
        simp

/-- The shared grade ternary chain meets the threshold predicate. -/
lemma gradeOf_thresholds (t : Int) : gradeConsistent t (gradeOf t) := by
  unfold gradeConsistent gradeOf
  split_ifs with h1 h2 h3 h4 <;>
    refine ⟨?_, ?_, ?_, ?_, ?_⟩ <;>
    constructor <;>
    intro h <;>
    first
      | omega
      | rfl
      | exact absurd h (by decide)

/-- The multi-source platform component is nonnegative. -/
lemma platformCountOf_nonneg (pass : Passport) : 0 ≤ platformCountOf pass := by
  unfold platformCountOf
  exact le_min (by positivity) (by norm_num)

/-- The multi-source age bonus is nonnegative when `createdAt` is not in
the future. -/
lemma ageBonusOf_nonneg (pass : Passport) (now : Int)
    (h : pass.createdAt ≤ now) : 0 ≤ ageBonusOf pass now := by
  unfold ageBonusOf ageInDaysOf
  refine le_min (Int.fdiv_nonneg ?_ (by norm_num)) (by norm_num)
  exact Int.fdiv_nonneg (by omega) (by norm_num)

/-- The diversity bonus is nonnegative. -/
lemma diversityBonusOf_nonneg (pass : Passport) : 0 ≤ diversityBonusOf pass := by
  unfold diversityBonusOf
  split_ifs <;> norm_num

/-- The points bonus is nonnegative. -/
lemma pointsBonusOf_nonneg (pass : Passport) : 0 ≤ pointsBonusOf pass := by
  unfold pointsBonusOf
  split_ifs with h
  · exact le_min (Int.natCast_nonneg _) (by norm_num)
  · norm_num

end Passly

namespace Passly.SS

/-- A successful lookup returns an entry of the mapping. -/
lemma verifLookup_mem (vs : List (String × Verification)) (p : String)
    (v : Verification) (h : verifLookup vs p = some v) : (p, v) ∈ vs := by
  unfold verifLookup at h
  cases hf : vs.find? (fun x => x.1 == p) with
  | none => rw [hf] at h; exact absurd h (by simp)
  | some x =>
    rw [hf] at h
    have hx := List.mem_of_find?_eq_some hf
    have hp : x.1 = p := by simpa using List.find?_some hf
    have hv : x.2 = v := by simpa using h
    have : x = (p, v) := by
      cases x
      simp_all
    rwa [this] at hx

/-- Whatever the earliest-verification loop returns is an active entry of
the verifications mapping. -/
lemma earliestGo_active (vs : List (String × Verification)) :
    ∀ (l : List String) (acc : Option (String × Verification)),
      (∀ pv, acc = some pv → pv ∈ vs ∧ pv.2.active = true) →
      ∀ pv, earliestGo vs l acc = some pv → pv ∈ vs ∧ pv.2.active = true := by
  intro l
  induction l with
  | nil =>
    intro acc hacc pv h
    exact hacc pv h
  | cons p rest ih =>
    intro acc hacc pv h
    unfold earliestGo at h
    split at h
    · exact ih acc hacc pv h
    · rename_i v hv
      split at h
      · rename_i hact
        split at h
        · refine ih _ ?_ pv h
          intro pv' hpv'
          have hpp : pv' = (p, v) := by simpa using hpv'.symm
          rw [hpp]
          exact ⟨verifLookup_mem vs p v hv, hact⟩
        · rename_i e
          split at h
          · refine ih _ ?_ pv h
            intro pv' hpv'
            have hpp : pv' = (p, v) := by simpa using hpv'.symm
            rw [hpp]
            exact ⟨verifLookup_mem vs p v hv, hact⟩
          · refine ih _ ?_ pv h
            intro pv' hpv'
            have hpp : pv' = e := by simpa using hpv'.symm
            rw [hpp]
            exact hacc e rfl
      · exact ih acc hacc pv h

/-- The reduced platform component is nonnegative. -/
lemma ssPlatformCountOf_nonneg (pass : Passport) : 0 ≤ platformCountOf pass := by
  unfold platformCountOf
  exact le_min (by positivity) (by norm_num)

/-- Unpacking of a successful `earliestAgeInDays`: the age comes from an
active entry of the verifications mapping. -/
lemma earliestAgeInDays_spec (pass : Passport) (now : Int) (d : Int)
    (h : earliestAgeInDays pass now = some d) :
    ∃ pv, pv ∈ pass.verifications ∧ pv.2.active = true ∧
      d = Int.fdiv (now - pv.2.verifiedAt) 86400000 := by
  unfold earliestAgeInDays at h
  split at h
  · exact absurd h (by simp)
  · rename_i pv he
    have hmem := earliestGo_active pass.verifications pass.platforms none
      (by intro pv' hpv'; exact absurd hpv' (by simp)) pv he
    exact ⟨pv, hmem.1, hmem.2, by simpa using h.symm⟩

/-- The reduced age bonus is nonnegative when no active verification
timestamp is in the future. -/
lemma ssAgeBonusOf_nonneg (pass : Passport) (now : Int)
    (h : ∀ p v, (p, v) ∈ pass.verifications → v.active = true →
      v.verifiedAt ≤ now) : 0 ≤ ageBonusOf pass now := by
  unfold ageBonusOf
  split
  · rename_i d hd
    obtain ⟨pv, hmem, hact, hd'⟩ := earliestAgeInDays_spec pass now d hd
    have hle : pv.2.verifiedAt ≤ now := h pv.1 pv.2 hmem hact
    have hd0 : 0 ≤ Int.fdiv (now - pv.2.verifiedAt) 86400000 :=
      Int.fdiv_nonneg (by omega) (by norm_num)
    rw [hd']
    refine le_min (Int.fdiv_nonneg (mul_nonneg hd0 (by norm_num)) (by norm_num))
      (by norm_num)
  · norm_num

/-- The reduced diversity bonus is nonnegative. -/
lemma ssDiversityBonusOf_nonneg (pass : Passport) : 0 ≤ diversityBonusOf pass := by
  unfold diversityBonusOf
  split_ifs <;> norm_num

end Passly.SS

namespace Passly

/-- A platform whose detail fetch fails never shows up in the gathered
verifications of the multi-source variant. -/
lemma buildVerifications_skips (reg : Registry) (pid : Nat) (p : String)
    (e : String) (herr : reg.getVerification pid p = .error e) :
    ∀ (l : List String) (v : Verification),
      (p, v) ∉ buildVerifications reg pid l := by
  intro l
  induction l with
  | nil => intro v h; exact absurd h (by simp [buildVerifications])
  | cons q rest ih =>
    intro v h
    unfold buildVerifications at h
    cases hq : reg.getVerification pid q with
    | ok w =>
      rw [hq] at h
      rcases List.mem_cons.mp h with hhead | htail
      · have hpq : p = q := congrArg Prod.fst hhead
        rw [hpq] at herr
        rw [herr] at hq
        exact absurd hq (by simp)
      · exact ih v htail
    | error f =>
      rw [hq] at h
      exact ih v h

/-- A platform whose detail fetch succeeds is kept by the gathering loop of
the multi-source variant. -/
lemma buildVerifications_keeps (reg : Registry) (pid : Nat) :
    ∀ (l : List String) (q : String) (v : VerificationRaw), q ∈ l →
      reg.getVerification pid q = .ok v →
      (q, fmtVerification v) ∈ buildVerifications reg pid l := by
  intro l
  induction l with
  | nil => intro q v hq; exact absurd hq (by simp)
  | cons r rest ih =>
    intro q v hq hv
    unfold buildVerifications
    rcases List.mem_cons.mp hq with hhead | htail
    · rw [← hhead, hv]
      exact List.mem_cons_self _ _
    · cases hr : reg.getVerification pid r with
      | ok w => exact List.mem_cons_of_mem _ (ih q v htail hv)
      | error f => exact ih q v htail hv

/-- A truthy fallback never yields the empty string. -/
lemma jsOr_ne_empty (s d : String) (hd : d ≠ "") : jsOr s d ≠ "" := by
  unfold jsOr
  split_ifs with h
  · exact hd
  · exact h

/-- The scanner never returns more matches than it still needs. -/
lemma scanGo_length (reg : SS.Registry) (ncat : String) (limit : Nat) :
    ∀ (a c f : Nat), (SS.scanGo reg ncat limit c f a).1.length ≤ limit - f := by
  intro a
  induction a with
  | zero =>
    intro c f
    simp [SS.scanGo]
  | succ m ih =>
    intro c f
    unfold SS.scanGo
    split_ifs with hf
    · simp
    · split
      · exact ih (c + 1) f
      · rename_i pd hd
        split_ifs with hcat
        · split
          · exact ih (c + 1) f
          · rename_i platforms hpl
            have h2 := ih (c + 1) (f + 1)
            show (SS.scanGo reg ncat limit (c + 1) (f + 1) m).1.length + 1 ≤
              limit - f
            omega
        · exact ih (c + 1) f

/-- The scanner probes one consecutive identifier per remaining attempt. -/
lemma scanGo_probes (reg : SS.Registry) (ncat : String) (limit : Nat) :
    ∀ (a c f : Nat), ∃ n, n ≤ a ∧
      (SS.scanGo reg ncat limit c f a).2 = List.range' c n := by
  intro a
  induction a with
  | zero =>
    intro c f
    exact ⟨0, Nat.le_refl 0, rfl⟩
  | succ m ih =>
    intro c f
    unfold SS.scanGo
    split_ifs with hf
    · exact ⟨0, Nat.zero_le _, rfl⟩
    · split
      · obtain ⟨n, hn, he⟩ := ih (c + 1) f
        refine ⟨n + 1, by omega, ?_⟩
        show c :: (SS.scanGo reg ncat limit (c + 1) f m).2 = List.range' c (n + 1)
        rw [he, List.range'_succ]
      · rename_i pd hd
        split_ifs with hcat
        · split
          · obtain ⟨n, hn, he⟩ := ih (c + 1) f
            refine ⟨n + 1, by omega, ?_⟩
            show c :: (SS.scanGo reg ncat limit (c + 1) f m).2 =
              List.range' c (n + 1)
            rw [he, List.range'_succ]
          · obtain ⟨n, hn, he⟩ := ih (c + 1) (f + 1)
            refine ⟨n + 1, by omega, ?_⟩
            show c :: (SS.scanGo reg ncat limit (c + 1) (f + 1) m).2 =
              List.range' c (n + 1)
            rw [he, List.range'_succ]
        · obtain ⟨n, hn, he⟩ := ih (c + 1) f
          refine ⟨n + 1, by omega, ?_⟩
          show c :: (SS.scanGo reg ncat limit (c + 1) f m).2 =
            List.range' c (n + 1)
          rw [he, List.range'_succ]

/-- Every scanner result comes from a successful base-record fetch whose
category matched the normalized request. -/
lemma scanGo_results (reg : SS.Registry) (ncat : String) (limit : Nat) :
    ∀ (a c f : Nat) (r : SS.ScanRecord), r ∈ (SS.scanGo reg ncat limit c f a).1 →
      ∃ pd, reg.getPassportData r.id = Except.ok pd ∧
        jsToLower pd.category = ncat ∧ r.category = pd.category := by
  intro a
  induction a with
  | zero =>
    intro c f r h
    exact absurd h (by simp [SS.scanGo])
  | succ m ih =>
    intro c f r h
    unfold SS.scanGo at h
    split_ifs at h with hf
    · exact absurd h (by simp)
    · split at h
      · exact ih (c + 1) f r h
      · rename_i pd hd
        split_ifs at h with hcat
        · split at h
          · exact ih (c + 1) f r h
          · rename_i platforms hpl
            have h' : r ∈
                ({ id := c, owner := pd.owner,
                   createdAt := (pd.createdAt : Int) * 1000,
                   verificationCount := pd.verificationCount,
                   category := pd.category,
                   platforms := platforms } : SS.ScanRecord) ::
                  (SS.scanGo reg ncat limit (c + 1) (f + 1) m).1 := h
            rcases List.mem_cons.mp h' with hhead | htail
            · refine ⟨pd, ?_, by simpa using hcat, ?_⟩
              · rw [hhead]
                exact hd
              · rw [hhead]
            · exact ih (c + 1) (f + 1) r htail
        · exact ih (c + 1) f r h

end Passly

namespace Passly

/-- C1: the multi-source `getVerificationStrength` breakdown follows the
stated formulas — platform component `min(15 × active, 75)`, age component
`min(floor(ageInDays / 30), 10)` from `createdAt`, diversity bonus 10 iff
the active platforms span at least two of the three fixed sets, points
component `min(floor(totalPoints / 100), 5)`, score `min(sum, 100)` — and
on the Scenario B identity (6 active platforms over 3 sets, 400 days old,
250 points) the components are 75, 10, 10, 2 with score 97 and grade A. -/
theorem claimC1 :
    (∀ (pass : Passport) (now : Int),
      (verificationStrengthOf pass now).breakdown.platformCount =
        min (15 * ((activePlatformList pass).length : Int)) 75 ∧
      (verificationStrengthOf pass now).breakdown.ageBonus =
        min (Int.fdiv (Int.fdiv (now - pass.createdAt) 86400000) 30) 10 ∧
      ((verificationStrengthOf pass now).breakdown.diversityBonus = 10 ↔
        atLeastTwoSets pass) ∧
      (verificationStrengthOf pass now).breakdown.pointsBonus =
        min ((pass.totalPoints / 100 : Nat) : Int) 5 ∧
      (verificationStrengthOf pass now).score =
        min ((verificationStrengthOf pass now).breakdown.platformCount +
             (verificationStrengthOf pass now).breakdown.ageBonus +
             (verificationStrengthOf pass now).breakdown.diversityBonus +
             (verificationStrengthOf pass now).breakdown.pointsBonus) 100) ∧
    verificationStrengthOf passportB nowB =
      { score := 97, grade := 'A'
        breakdown :=
          { platformCount := 75, ageBonus := 10, diversityBonus := 10,
            pointsBonus := 2, totalScore := 97 }
        activePlatforms := 6, accountAge := 400 } := by
  constructor
  · intro pass now
    refine ⟨?_, rfl, ?_, ?_, rfl⟩
    · show platformCountOf pass = _
      unfold platformCountOf
      rw [mul_comm]
    · show diversityBonusOf pass = 10 ↔ _
      unfold diversityBonusOf
      rcases (typesOf_two_iff pass) with ⟨hmp, hpm⟩
      constructor
      · intro h
        by_contra hc
        have hlt : ¬ 2 ≤ (typesOf pass).length := fun hh => hc (hmp hh)
        simp [hlt] at h
      · intro h
        simp [hpm h]
    · show pointsBonusOf pass = _
      unfold pointsBonusOf
      split_ifs with h
      · rfl
      · have h0 : pass.totalPoints = 0 := by omega
        rw [h0]
        decide
  · decide

/-- C2: for every category, limit ≥ 1 and start identifier, the scanner
terminates with at most `limit` results, probes at most `limit × 10`
consecutive identifiers starting at `startId`, silently skips identifiers
whose base-record fetch fails (every result has a successful fetch), and
every returned category matches the request case-insensitively. -/
theorem claimC2 :
    ∀ (reg : SS.Registry) (category : String) (limit startId : Nat),
      1 ≤ limit →
      (∃ results,
        (SS.getUsersByCategory true reg category limit startId).1 =
          Except.ok results ∧
        results.length ≤ limit ∧
        ∀ r ∈ results,
          (∃ pd, reg.getPassportData r.id = Except.ok pd) ∧
          jsToLower r.category = jsToLower category) ∧
      (∃ n, n ≤ limit * 10 ∧
        (SS.getUsersByCategory true reg category limit startId).2 =
          List.range' startId n) := by
  intro reg category limit startId hlim
  constructor
  · refine ⟨(SS.scanGo reg (jsToLower category) limit startId 0 (limit * 10)).1,
      rfl, ?_, ?_⟩
    · simpa using scanGo_length reg (jsToLower category) limit (limit * 10)
        startId 0
    · intro r hr
      obtain ⟨pd, hpd, hcat, hrc⟩ := scanGo_results reg (jsToLower category)
        limit (limit * 10) startId 0 r hr
      refine ⟨⟨pd, hpd⟩, ?_⟩
      rw [hrc]
      exact hcat
  · obtain ⟨n, hn, he⟩ := scanGo_probes reg (jsToLower category) limit
      (limit * 10) startId 0
    exact ⟨n, hn, he⟩

/-- C2 witness: the scanner bound applied at limit 5 and start 1, the
instance named by P4. -/
theorem claimC2_witness :
    (∃ results,
      (SS.getUsersByCategory true scanRegistry "gaming" 5 1).1 =
        Except.ok results ∧
      results.length ≤ 5 ∧
      ∀ r ∈ results,
        (∃ pd, scanRegistry.getPassportData r.id = Except.ok pd) ∧
        jsToLower r.category = jsToLower "gaming") ∧
    (∃ n, n ≤ 5 * 10 ∧
      (SS.getUsersByCategory true scanRegistry "gaming" 5 1).2 =
        List.range' 1 n) :=
  claimC2 scanRegistry "gaming" 5 1 (by decide)

/-- C3 counterexample: on the Scenario B identity with the rewards binding
missing, `getVerificationStrength` still awards pointsComponent 2 from the
passport snapshot `totalPoints` and totals 97 — not pointsComponent 0 and
total 95 as claimed. -/
theorem claimC3_counterexample :
    getVerificationStrength sdkNoRewards chainB "0xb" nowB =
      Except.ok (some
        { score := 97, grade := 'A'
          breakdown :=
            { platformCount := 75, ageBonus := 10, diversityBonus := 10,
              pointsBonus := 2, totalScore := 97 }
          activePlatforms := 6, accountAge := 400 }) ∧
    getVerificationStrength sdkNoRewards chainB "0xb" nowB ≠
      Except.ok (some
        { score := 95, grade := 'A'
          breakdown :=
            { platformCount := 75, ageBonus := 10, diversityBonus := 10,
              pointsBonus := 0, totalScore := 95 }
          activePlatforms := 6, accountAge := 400 }) := by
  constructor
  · decide
  · decide

/-- C3 (amended): the rewards binding has no effect on
`getVerificationStrength` — the points component is always computed from
the passport snapshot `totalPoints` fetched from the mandatory registry —
and on the Scenario B identity with the rewards source unbound the result
keeps pointsComponent 2, total 97, grade A. -/
theorem claimC3_amended :
    (∀ (conn : Bool) (c c' : Contracts) (env : Chain) (address : String)
        (now : Int),
      getVerificationStrength { isConnected := conn, contracts := c } env
          address now =
        getVerificationStrength { isConnected := conn, contracts := c' } env
          address now) ∧
    getVerificationStrength sdkNoRewards chainB "0xb" nowB =
      Except.ok (some
        { score := 97, grade := 'A'
          breakdown :=
            { platformCount := 75, ageBonus := 10, diversityBonus := 10,
              pointsBonus := 2, totalScore := 97 }
          activePlatforms := 6, accountAge := 400 }) := by
  constructor
  · intro conn c c' env address now
    rfl
  · decide

/-- C4 counterexample: on a registry failure other than the recognized
no-passport outcome, `getPassportId` re-raises it, but `getPassport`
catches it and returns Absent instead of propagating — contradicting the
claim that the failure propagates from every resolving operation. -/
theorem claimC4_counterexample :
    getPassportId (connect {}) chainDown "0xa" = Except.error "network down" ∧
    getPassport (connect {}) chainDown "0xa" = Except.ok none := by
  constructor
  · decide
  · decide

/-- C4 (amended): an unrecognized reverse-lookup failure propagates
unmodified out of `getPassportId`, but `getPassport` converts every
resolution failure — the unexpected ones included — to Absent; only the
code inside `getPassportId` distinguishes the no-passport outcome. -/
theorem claimC4_amended :
    ∀ (sdk : SDK) (env : Chain) (address e : String),
      sdk.isConnected = true →
      env.passly.getPassportByAddress address = Except.error e →
      jsIncludes e "User has no passport" = false →
      getPassportId sdk env address = Except.error e ∧
      getPassport sdk env address = Except.ok none := by
  intro sdk env address e hconn herr hinc
  have hid : getPassportId sdk env address = Except.error e := by
    unfold getPassportId
    simp [hconn, herr, hinc]
  refine ⟨hid, ?_⟩
  unfold getPassport
  simp [hconn, hid]

/-- C4 witness: the amended statement applied to the unreachable-registry
chain. -/
theorem claimC4_witness :
    getPassportId (connect {}) chainDown "0xw" = Except.error "network down" ∧
    getPassport (connect {}) chainDown "0xw" = Except.ok none :=
  claimC4_amended (connect {}) chainDown "0xw" "network down" rfl rfl (by decide)

/-- C5 (amended): in the multi-source variant, one platform's failing
detail fetch leaves `getPassport` successful, omits exactly that platform,
and keeps every platform whose fetch succeeded.  (In the single-source
variant the failure aborts the whole call — see the counterexample.) -/
theorem claimC5_amended :
    ∀ (sdk : SDK) (env : Chain) (address : String) (pid : Nat)
      (pd : PassportDataRaw) (pl : List String) (p e : String),
      sdk.isConnected = true →
      getPassportId sdk env address = Except.ok (some pid) →
      pid ≠ 0 →
      env.passly.getPassportData pid = Except.ok pd →
      env.passly.getVerifiedPlatforms pid = Except.ok pl →
      env.passly.getVerification pid p = Except.error e →
      (∃ pass, getPassport sdk env address = Except.ok (some pass)) ∧
      (∀ v, (p, v) ∉ buildVerifications env.passly pid pl) ∧
      (∀ q v, q ∈ pl → env.passly.getVerification pid q = Except.ok v →
        (q, fmtVerification v) ∈ buildVerifications env.passly pid pl) := by
  intro sdk env address pid pd pl p e hconn hpid hpid0 hpd hpl herr
  refine ⟨⟨{ id := pid, owner := pd.owner,
             createdAt := (pd.createdAt : Int) * 1000,
             verificationCount := pd.verificationCount,
             category := pd.category, totalPoints := pd.totalPoints,
             referralCode := pd.referralCode,
             totalReferrals := pd.totalReferrals, platforms := pl,
             verifications := buildVerifications env.passly pid pl }, ?_⟩,
    buildVerifications_skips env.passly pid p e herr pl,
    fun q v hq hv => buildVerifications_keeps env.passly pid pl q v hq hv⟩
  unfold getPassport
  simp [hconn, hpid, hpid0, hpd, hpl]

/-- C5 witness: the amended statement applied to the half-failing chain. -/
theorem claimC5_witness :
    (∃ pass, getPassport (connect {}) chainHalf "0xa" = Except.ok (some pass)) ∧
    (∀ v, ("github", v) ∉
      buildVerifications chainHalf.passly 7 ["twitter", "github"]) ∧
    (∀ q v, q ∈ ["twitter", "github"] →
      chainHalf.passly.getVerification 7 q = Except.ok v →
      (q, fmtVerification v) ∈
        buildVerifications chainHalf.passly 7 ["twitter", "github"]) :=
  claimC5_amended (connect {}) chainHalf "0xa" 7
    { owner := "0xH", createdAt := 0, verificationCount := 2,
      category := "developer", totalPoints := 0, referralCode := "",
      totalReferrals := 0 }
    ["twitter", "github"] "github" "boom" rfl (by decide) (by decide)
    (by decide) (by decide) (by decide)

/-- C5 counterexample: in the single-source variant the same one-platform
failure aborts the whole `getPassport` call with the upstream error — the
partial-success policy does not hold in both variants. -/
theorem claimC5_counterexample :
    SS.getPassport true ssRegistryHalf "0xa" =
      Except.error "github fetch failed" := by
  decide

/-- C6 (amended): in both variants the score is `min(sum, 100) ≤ 100`, it
is nonnegative provided the relevant timestamps are not in the future
(`createdAt` for the multi-source variant, the active verification
timestamps for the single-source variant), and the grade always matches
the fixed thresholds.  Without the timestamp proviso the score can drop
below 0 (see the counterexample). -/
theorem claimC6 :
    ∀ (pass : Passport) (spass : SS.Passport) (now : Int),
      (pass.createdAt ≤ now →
        0 ≤ (verificationStrengthOf pass now).score ∧
        (verificationStrengthOf pass now).score ≤ 100) ∧
      ((∀ p v, (p, v) ∈ spass.verifications → v.active = true →
          v.verifiedAt ≤ now) →
        0 ≤ (SS.verificationStrengthOf spass now).score ∧
        (SS.verificationStrengthOf spass now).score ≤ 100) ∧
      gradeConsistent (verificationStrengthOf pass now).score
        (verificationStrengthOf pass now).grade ∧
      gradeConsistent (SS.verificationStrengthOf spass now).score
        (SS.verificationStrengthOf spass now).grade := by
  intro pass spass now
  refine ⟨fun h => ⟨?_, ?_⟩, fun h => ⟨?_, ?_⟩,
    gradeOf_thresholds _, gradeOf_thresholds _⟩
  · show 0 ≤ totalScoreOf pass now
    unfold totalScoreOf scoreSumOf
    have h1 := platformCountOf_nonneg pass
    have h2 := ageBonusOf_nonneg pass now h
    have h3 := diversityBonusOf_nonneg pass
    have h4 := pointsBonusOf_nonneg pass
    refine le_min (by omega) (by norm_num)
  · show totalScoreOf pass now ≤ 100
    exact min_le_right _ _
  · show 0 ≤ SS.totalScoreOf spass now
    unfold SS.totalScoreOf SS.scoreSumOf
    have h1 := SS.ssPlatformCountOf_nonneg spass
    have h2 := SS.ssAgeBonusOf_nonneg spass now h
    have h3 := SS.ssDiversityBonusOf_nonneg spass
    refine le_min (by omega) (by norm_num)
  · show SS.totalScoreOf spass now ≤ 100
    exact min_le_right _ _

/-- C6 counterexample: evaluated at time 0, a passport created 31 days in
the future gets age bonus -2 and total score -2, violating the claimed
bound `0 ≤ score` — the claim as stated does not hold for every passport. -/
theorem claimC6_counterexample : (verificationStrengthOf passFut 0).score < 0 := by
  decide

/-- C6 witness: the amended bounds instantiated on Scenario B and on a
concrete single-source passport. -/
theorem claimC6_witness :
    (0 ≤ (verificationStrengthOf passportB nowB).score ∧
      (verificationStrengthOf passportB nowB).score ≤ 100) ∧
    (0 ≤ (SS.verificationStrengthOf spassW nowB).score ∧
      (SS.verificationStrengthOf spassW nowB).score ≤ 100) ∧
    gradeConsistent (verificationStrengthOf passportB nowB).score
      (verificationStrengthOf passportB nowB).grade ∧
    gradeConsistent (SS.verificationStrengthOf spassW nowB).score
      (SS.verificationStrengthOf spassW nowB).grade := by
  have h := claimC6 passportB spassW nowB
  refine ⟨h.1 (by decide), h.2.1 ?_, h.2.2.1, h.2.2.2⟩
  intro p v hv _
  simp only [spassW, List.mem_singleton] at hv
  injection hv with h1 h2
  subst h2
  decide

/-- C7: in both variants, once a passport resolves, `getUserVerifications`
returns the active-filtered view, and every platform key of that view maps
to a verification that is active in the underlying passport. -/
theorem claimC7 :
    (∀ (sdk : SDK) (env : Chain) (address : String) (pass : Passport),
      getPassport sdk env address = Except.ok (some pass) →
      getUserVerifications sdk env address =
        Except.ok (some (userVerificationsView pass.verifications)) ∧
      ∀ p i, (p, i) ∈ userVerificationsView pass.verifications →
        ∃ v, (p, v) ∈ pass.verifications ∧ v.active = true ∧
          v.identifier = i) ∧
    (∀ (conn : Bool) (reg : SS.Registry) (address : String)
        (spass : SS.Passport),
      SS.getPassport conn reg address = Except.ok (some spass) →
      SS.getUserVerifications conn reg address =
        Except.ok (some (SS.userVerificationsView spass.verifications)) ∧
      ∀ p i, (p, i) ∈ SS.userVerificationsView spass.verifications →
        ∃ v, (p, v) ∈ spass.verifications ∧ v.active = true ∧
          v.identifier = i) := by
  constructor
  · intro sdk env address pass hp
    constructor
    · unfold getUserVerifications
      rw [hp]
    · intro p i hmem
      rcases List.mem_map.mp hmem with ⟨x, hxf, hxe⟩
      rcases List.mem_filter.mp hxf with ⟨hxmem, hxact⟩
      have h1 : x.1 = p := congrArg Prod.fst hxe
      have h2 : x.2.identifier = i := congrArg Prod.snd hxe
      refine ⟨x.2, ?_, by simpa using hxact, h2⟩
      rw [← h1]
      exact hxmem
  · intro conn reg address spass hp
    constructor
    · unfold SS.getUserVerifications
      rw [hp]
    · intro p i hmem
      rcases List.mem_map.mp hmem with ⟨x, hxf, hxe⟩
      rcases List.mem_filter.mp hxf with ⟨hxmem, hxact⟩
      have h1 : x.1 = p := congrArg Prod.fst hxe
      have h2 : x.2.identifier = i := congrArg Prod.snd hxe
      refine ⟨x.2, ?_, by simpa using hxact, h2⟩
      rw [← h1]
      exact hxmem

/-- C7 witness: both halves applied to concrete chains, with the inner
property instantiated at a concrete platform of each view. -/
theorem claimC7_witness :
    (getUserVerifications sdkNoRewards chainB "0xb" =
      Except.ok (some (userVerificationsView passportBFull.verifications))) ∧
    (∃ v, ("twitter", v) ∈ passportBFull.verifications ∧ v.active = true ∧
      v.identifier = "twitter") ∧
    (SS.getUserVerifications true ssRegistryOne "0xw" =
      Except.ok (some (SS.userVerificationsView spassOne.verifications))) ∧
    (∃ v, ("twitter", v) ∈ spassOne.verifications ∧ v.active = true ∧
      v.identifier = "al") := by
  have h1 := claimC7.1 sdkNoRewards chainB "0xb" passportBFull (by decide)
  have h2 := claimC7.2 true ssRegistryOne "0xw" spassOne (by decide)
  exact ⟨h1.1, h1.2 "twitter" "twitter" (by decide),
    h2.1, h2.2 "twitter" "al" (by decide)⟩

/-- C8: with a live session whose rewards binding is missing,
`getPointBreakdown` returns Absent without raising and without attempting
any rewards-contract call (the attempt flag stays false). -/
theorem claimC8 :
    ∀ (sdk : SDK) (env : Chain) (handle : String),
      sdk.isConnected = true →
      sdk.contracts.rewards = none →
      getPointBreakdownT sdk env handle = (Except.ok none, false) := by
  intro sdk env handle hconn hrw
  unfold getPointBreakdownT
  simp [hconn, hrw]

/-- C8 witness: the statement applied to the rewards-free session over the
Scenario B chain. -/
theorem claimC8_witness :
    getPointBreakdownT sdkNoRewards chainB "0xb" = (Except.ok none, false) :=
  claimC8 sdkNoRewards chainB "0xb" rfl rfl

/-- C9: after any `connect`, all five contract bindings are set (each
address falls back to a fixed non-empty default), so the unbound-rewards
branches of `getPointBreakdown` and `getPoints` are bypassed: both
operations always take their bound-path body in a connected session. -/
theorem claimC9 :
    ∀ (cfg : Config) (env : Chain) (handle : String),
      (connect cfg).contracts.passly.isSome = true ∧
      (connect cfg).contracts.platforms.isSome = true ∧
      (connect cfg).contracts.archives.isSome = true ∧
      (connect cfg).contracts.rewards.isSome = true ∧
      (connect cfg).contracts.leaderboard.isSome = true ∧
      getPointBreakdownT (connect cfg) env handle =
        getPointBreakdownBound (connect cfg) env handle ∧
      getPointsT (connect cfg) env handle =
        getPointsBound (connect cfg) env handle := by
  intro cfg env handle
  have hconn : (connect cfg).isConnected = true := rfl
  have hpl : (connect cfg).contracts.platforms =
      some (jsOr cfg.platformsAddress "0xd2FEEa5775c171D85648198AeB77377fD9AdFe98") := by
    show (if jsOr cfg.platformsAddress _ ≠ "" then some _ else none) = some _
    rw [if_pos (jsOr_ne_empty _ _ (by decide))]
  have har : (connect cfg).contracts.archives =
      some (jsOr cfg.archivesAddress "0xbC57EA3ff9BDE13087b907Dc02e86f08C57574E7") := by
    show (if jsOr cfg.archivesAddress _ ≠ "" then some _ else none) = some _
    rw [if_pos (jsOr_ne_empty _ _ (by decide))]
  have hrw : (connect cfg).contracts.rewards =
      some (jsOr cfg.rewardsAddress "0xEc34ad267a9AACE045Ef4644047BCFeB0f53b0C0") := by
    show (if jsOr cfg.rewardsAddress _ ≠ "" then some _ else none) = some _
    rw [if_pos (jsOr_ne_empty _ _ (by decide))]
  have hlb : (connect cfg).contracts.leaderboard =
      some (jsOr cfg.leaderboardAddress "0x7f9c4841346d0ef7970daF02aE3663f8AC5bE540") := by
    show (if jsOr cfg.leaderboardAddress _ ≠ "" then some _ else none) = some _
    rw [if_pos (jsOr_ne_empty _ _ (by decide))]
  refine ⟨rfl, by rw [hpl]; rfl, by rw [har]; rfl, by rw [hrw]; rfl,
    by rw [hlb]; rfl, ?_, ?_⟩
  · unfold getPointBreakdownT
    rw [hconn, hrw]
    rfl
  · unfold getPointsT
    rw [hconn, hrw]
    rfl

/-- C10: when the reverse lookup returns identifier 0, `hasPassport` is
true (0 is not null) while `getPassport` treats the falsy 0 as absence and
returns Absent — so `hasPassport` does not imply a present passport. -/
theorem claimC10 :
    hasPassport (connect {}) chainZero "0x1" = Except.ok true ∧
    getPassport (connect {}) chainZero "0x1" = Except.ok none := by
  constructor
  · decide
  · decide

end Passly
